import Mathlib

/-!
Shallow embedding of the AutoReplyAI review auto-response subsystem
(src/server/automationService.ts, which also contains the DatabaseStorage
layer, plus the manual-check endpoint of src/server/routes.ts and the
drizzle schema).

Modelling conventions:
* JavaScript Date values are modelled as natural-number instants; the wall
  clock observed during a call is passed as an explicit `now : Nat`.
* Database tables are lists of rows inside a `DB` record.  `createdAt` /
  `updatedAt` bookkeeping timestamps are omitted: no claim mentions them.
* Environment nondeterminism (the random review simulator, the external
  text-generation call, persistence failures of single inserts, and a
  rejection of one account's awaited pipeline inside a sweep) is supplied
  through explicit oracle functions, so every definition stays executable.
* Thrown exceptions that cross a function boundary are modelled with
  `Except`; exceptions that the source catches internally disappear into
  the total result, exactly as the corresponding `try/catch` swallows them.
-/

namespace AutoReplyAI

/-- Row of the `user_settings` table (src/unnamed/part_000). -/
structure UserSettings where
  userId : String
  defaultTone : String
  language : String
  autoReplyEnabled : Bool
  lastCheckTime : Nat
deriving DecidableEq, Repr

/-- Row of the `platforms` table, restricted to the fields the automation
core reads (`id`, `userId`, `platformName`). -/
structure Platform where
  id : Nat
  userId : String
  platformName : String
deriving DecidableEq, Repr

/-- Row of the `reviews` table, restricted to the fields the automation
core writes. -/
structure Review where
  userId : String
  platformId : Nat
  externalReviewId : String
  customerName : String
  reviewText : String
  starRating : Nat
  responseText : String
  responseTone : String
  respondedAt : Nat
  autoResponded : Bool
deriving DecidableEq, Repr

/-- Row of the `reply_templates` table. -/
structure ReplyTemplate where
  id : Nat
  userId : String
  name : String
  content : String
  tone : String
deriving DecidableEq, Repr

/-- Candidate review produced by the review-source simulator
(`simulateNewReviews`). -/
structure Candidate where
  externalReviewId : String
  customerName : String
  reviewText : String
  starRating : Nat
deriving DecidableEq, Repr

/-- The database state visible to the automation core. -/
structure DB where
  settings : List UserSettings
  platforms : List Platform
  reviews : List Review
  templates : List ReplyTemplate
deriving DecidableEq, Repr

/-- DatabaseStorage.getUserSettings: first `user_settings` row for the user. -/
def getUserSettings (db : DB) (userId : String) : Option UserSettings :=
  db.settings.find? (fun s => s.userId == userId)

/-- DatabaseStorage.getPlatforms: all platform rows of the user. -/
def getPlatforms (db : DB) (userId : String) : List Platform :=
  db.platforms.filter (fun p => p.userId == userId)

/-- Partial `InsertUserSettings` object as passed to
DatabaseStorage.updateUserSettings; `none` models an absent key. -/
structure SettingsPatch where
  defaultTone : Option String
  language : Option String
  autoReplyEnabled : Option Bool
  lastCheckTime : Option Nat
deriving DecidableEq, Repr

/-- JavaScript `x || d` on an optional string: absent (undefined/null) and
the empty string are falsy and yield the default. -/
def jsOrStr (x : Option String) (d : String) : String :=
  match x with
  | none => d
  | some s => if s == "" then d else s

/-- Effect of the drizzle `update ... set { ...settings }` on one row:
only the keys present in the patch are overwritten. -/
def applyPatch (p : SettingsPatch) (s : UserSettings) : UserSettings :=
  { s with
    defaultTone := p.defaultTone.getD s.defaultTone
    language := p.language.getD s.language
    autoReplyEnabled := p.autoReplyEnabled.getD s.autoReplyEnabled
    lastCheckTime := p.lastCheckTime.getD s.lastCheckTime }

/-- DatabaseStorage.updateUserSettings: update every row matching the
userId and return the first updated row; when no row matched, build a new
row (`defaultTone || "Professional"`, `language || "English"`,
`autoReplyEnabled !== undefined ? ... : false`,
`lastCheckTime || new Date()`), insert it and return it. -/
def updateUserSettings (userId : String) (p : SettingsPatch) (now : Nat)
    (db : DB) : DB × UserSettings :=
  match getUserSettings db userId with
  | some s =>
      ({ db with settings :=
          db.settings.map (fun r => if r.userId == userId then applyPatch p r else r) },
       applyPatch p s)
  | none =>
      let created : UserSettings :=
        { userId := userId
          defaultTone := jsOrStr p.defaultTone "Professional"
          language := jsOrStr p.language "English"
          autoReplyEnabled := p.autoReplyEnabled.getD false
          lastCheckTime := p.lastCheckTime.getD now }
      ({ db with settings := db.settings ++ [created] }, created)

/-- DatabaseStorage.deletePlatform: delete matching rows, return true
unconditionally. -/
def deletePlatform (id : Nat) (db : DB) : DB × Bool :=
  ({ db with platforms := db.platforms.filter (fun p => !(p.id == id)) }, true)

/-- DatabaseStorage.deleteReplyTemplate: delete matching rows, return true
unconditionally. -/
def deleteReplyTemplate (id : Nat) (db : DB) : DB × Bool :=
  ({ db with templates := db.templates.filter (fun t => !(t.id == id)) }, true)

/-- Sentiment bucket of a star rating.
Modelled from the spec: the Response Generator lives in src/server/openai.ts,
which is absent from src/; the spec fixes the bucketing as rating at least 4
positive, at most 2 negative, otherwise neutral. -/
inductive Bucket where
  | positive
  | negative
  | neutral
deriving DecidableEq, Repr

/-- Bucket selection by star rating (spec-modelled, see `Bucket`). -/
def sentimentBucket (rating : Nat) : Bucket :=
  if 4 ≤ rating then Bucket.positive
  else if rating ≤ 2 then Bucket.negative
  else Bucket.neutral

/-- Deterministic fallback template, keyed by sentiment bucket and requested
tone.  Modelled from the spec: the concrete template strings of
src/server/openai.ts are absent from src/; what matters is that the string
is a deterministic function of bucket and tone. -/
def fallbackTemplate (b : Bucket) (tone : String) : String :=
  let base :=
    match b with
    | Bucket.positive => "Thank you so much for your wonderful feedback!"
    | Bucket.negative => "We are sorry your experience fell short and would like to make it right."
    | Bucket.neutral => "Thank you for taking the time to share your feedback."
  base ++ " (tone: " ++ tone ++ ")"

/-- Outcome of one attempt of the external text-generation call; supplied
as an oracle because it depends on the network. -/
abbrev GenAttempt := Except String String

/-- generateResponse, modelled from the spec: src/server/openai.ts is absent
from src/; per the spec the call may fail internally but must never raise to
the caller, degrading to the deterministic fallback template chosen by
sentiment bucket and requested tone.  The totality of this function is the
never-raises guarantee. -/
def generateResponse (attempt : GenAttempt) (reviewText : String)
    (starRating : Nat) (tone : String) (language : String) : String :=
  match attempt with
  | Except.ok text => text
  | Except.error _ => fallbackTemplate (sentimentBucket starRating) tone

/-- Environment oracles feeding one pipeline run: per-platform simulator
results (an `Except.error` is a fetch that threw, caught by the per-platform
catch), the generation attempt per candidate, and whether persisting a
candidate's row succeeds (a `false` is an insert that threw, caught by the
per-review catch). -/
structure Oracles where
  fetch : Platform → Except String (List Candidate)
  gen : Candidate → GenAttempt
  insertOk : Candidate → Bool

/-- Does a review row with this (userId, externalReviewId) pair exist? -/
def pairMem (revs : List Review) (userId extId : String) : Bool :=
  revs.any (fun r => r.userId == userId && r.externalReviewId == extId)

/-- No two rows share the same (userId, externalReviewId) pair. -/
def noDupPairsB : List Review → Bool
  | [] => true
  | r :: rest => !pairMem rest r.userId r.externalReviewId && noDupPairsB rest

/-- The InsertReview record built for a freshly ingested candidate
(processUserReviews step 5). -/
def mkReview (userId : String) (platformId : Nat) (tone : String)
    (responseText : String) (now : Nat) (c : Candidate) : Review :=
  { userId := userId
    platformId := platformId
    externalReviewId := c.externalReviewId
    customerName := c.customerName
    reviewText := c.reviewText
    starRating := c.starRating
    responseText := responseText
    responseTone := tone
    respondedAt := now
    autoResponded := true }

/-- Inner per-candidate body of processUserReviews (steps 3b-5): skip when
the (userId, externalReviewId) pair already exists, otherwise generate the
response and insert the row; a failing insert is caught and leaves the
table unchanged. -/
def processCandidate (userId : String) (platformId : Nat)
    (tone language : String) (o : Oracles) (now : Nat)
    (revs : List Review) (c : Candidate) : List Review :=
  if pairMem revs userId c.externalReviewId then revs
  else
    let responseText :=
      generateResponse (o.gen c) c.reviewText c.starRating tone language
    if o.insertOk c then
      revs ++ [mkReview userId platformId tone responseText now c]
    else revs

/-- Per-platform body of processUserReviews (step 3): a fetch that threw is
caught by the per-platform catch and contributes nothing. -/
def processPlatform (userId tone language : String) (o : Oracles) (now : Nat)
    (revs : List Review) (p : Platform) : List Review :=
  match o.fetch p with
  | Except.error _ => revs
  | Except.ok cands =>
      cands.foldl (processCandidate userId p.id tone language o now) revs

/-- AutomationService.processUserReviews: early exit when the user has no
platforms or no settings row; otherwise process every platform and finally
advance the lastCheckTime watermark through updateUserSettings.  The source
wraps the whole body in a try/catch that only logs, so the function never
raises, which the total return type records. -/
def processUserReviews (userId tone language : String) (o : Oracles)
    (now : Nat) (db : DB) : DB :=
  let plats := getPlatforms db userId
  if plats.isEmpty then db
  else
    match getUserSettings db userId with
    | none => db
    | some _ =>
        let revs := plats.foldl (processPlatform userId tone language o now) db.reviews
        let db1 : DB := { db with reviews := revs }
        (updateUserSettings userId
          { defaultTone := none, language := none,
            autoReplyEnabled := none, lastCheckTime := some now } now db1).1

/-- One account's step inside AutomationService.processAllUsers: skip when
the account id is already in the processing set; otherwise add it, run the
pipeline inside try/catch (`fails` tells whether the awaited call rejected;
a rejection is caught and logged), and remove the id in the finally block.
The state is (processing set, database). -/
def sweepStep (fails : String → Bool) (o : Oracles) (now : Nat)
    (st : List String × DB) (s : UserSettings) : List String × DB :=
  if st.1.contains s.userId then st
  else
    let proc1 := s.userId :: st.1
    let db1 :=
      if fails s.userId then st.2
      else processUserReviews s.userId s.defaultTone s.language o now st.2
    (proc1.erase s.userId, db1)

/-- AutomationService.processAllUsers: one sweep over the settings rows
with autoReplyEnabled, snapshotted from the database at sweep start. -/
def processAllUsers (fails : String → Bool) (o : Oracles) (now : Nat)
    (proc : List String) (db : DB) : List String × DB :=
  (db.settings.filter (fun s => s.autoReplyEnabled)).foldl
    (sweepStep fails o now) (proc, db)

/-- Errors AutomationService.checkUserReviewsNow can throw. -/
inductive AutomationError where
  | busy
  | settingsNotFound
deriving DecidableEq, Repr

/-- AutomationService.checkUserReviewsNow: throw busy when the account id is
in the processing set; otherwise add the id, throw when the settings row is
absent, else run the pipeline; in every non-busy path the finally block
removes the id again. -/
def checkUserReviewsNow (o : Oracles) (now : Nat) (proc : List String)
    (userId : String) (db : DB) :
    List String × DB × Except AutomationError Unit :=
  if proc.contains userId then (proc, db, Except.error AutomationError.busy)
  else
    let proc1 := userId :: proc
    match getUserSettings db userId with
    | none => (proc1.erase userId, db, Except.error AutomationError.settingsNotFound)
    | some s =>
        (proc1.erase userId,
         processUserReviews userId s.defaultTone s.language o now db,
         Except.ok ())

/-- The scheduler's own state: the isRunning flag and the armed repeating
timer, recorded as its interval in milliseconds. -/
structure ServiceState where
  isRunning : Bool
  timer : Option Nat
deriving DecidableEq, Repr

/-- CHECK_INTERVAL of src/server/automationService.ts. -/
def CHECK_INTERVAL : Nat := 5 * 60 * 1000

/-- AutomationService.start: no-op when already running; otherwise mark
running, fire one immediate sweep and arm the repeating timer.  The final
Nat counts the sweeps this call itself triggered. -/
def start (fails : String → Bool) (o : Oracles) (now : Nat)
    (st : ServiceState) (proc : List String) (db : DB) :
    ServiceState × (List String × DB) × Nat :=
  if st.isRunning then (st, (proc, db), 0)
  else
    ({ isRunning := true, timer := some CHECK_INTERVAL },
     processAllUsers fails o now proc db, 1)

/-- AutomationService.stop: no-op when not running; otherwise clear the
flag and cancel the timer.  In-flight work is untouched (stop reads no
other state). -/
def stop (st : ServiceState) : ServiceState :=
  if !st.isRunning then st
  else { isRunning := false, timer := none }

/-- HTTP response produced by a route handler. -/
structure HttpResponse where
  status : Nat
  message : String
deriving DecidableEq, Repr

/-- POST /api/check-reviews handler body (src/server/routes.ts): await
checkUserReviewsNow and answer 200; any thrown error, the busy error
included, is answered by the single catch-all with status 500. -/
def checkReviewsRoute (o : Oracles) (now : Nat) (proc : List String)
    (userId : String) (db : DB) : (List String × DB) × HttpResponse :=
  match checkUserReviewsNow o now proc userId db with
  | (proc1, db1, Except.ok _) =>
      ((proc1, db1), { status := 200, message := "Review check initiated" })
  | (proc1, db1, Except.error _) =>
      ((proc1, db1), { status := 500, message := "Failed to check for reviews" })

/-! Helper lemmas -/

/-- A fold preserves any invariant its step preserves. -/
theorem foldl_preserve {α β : Type} {P : α → Prop} (f : α → β → α)
    (h : ∀ a b, P a → P (f a b)) :
    ∀ (l : List β) (a : α), P a → P (l.foldl f a) := by
  intro l
  induction l with
  | nil => intro a ha; exact ha
  | cons b l ih => intro a ha; exact ih _ (h a b ha)

theorem pairMem_append (l1 l2 : List Review) (u e : String) :
    pairMem (l1 ++ l2) u e = (pairMem l1 u e || pairMem l2 u e) := by
  simp [pairMem, List.any_append]

theorem pairMem_false_iff (l : List Review) (u e : String) :
    pairMem l u e = false ↔
      ∀ r ∈ l, ¬(r.userId = u ∧ r.externalReviewId = e) := by
  rw [← Bool.not_eq_true]
  simp [pairMem, List.any_eq_true, beq_iff_eq]

/-- Appending one fresh pair keeps the no-duplicate-pairs invariant. -/
theorem noDupPairsB_append_singleton {l : List Review} {r : Review}
    (hl : noDupPairsB l = true)
    (hr : pairMem l r.userId r.externalReviewId = false) :
    noDupPairsB (l ++ [r]) = true := by
  induction l with
  | nil => simp [noDupPairsB, pairMem]
  | cons x l ih =>
      simp only [noDupPairsB, Bool.and_eq_true, Bool.not_eq_true'] at hl
      rw [pairMem_false_iff] at hr
      simp only [List.cons_append, noDupPairsB, Bool.and_eq_true, Bool.not_eq_true']
      constructor
      · rw [show l.append [r] = l ++ [r] from rfl, pairMem_append]
        rw [hl.1]
        simp only [Bool.false_or, pairMem, List.any_cons, List.any_nil, Bool.or_false,
          Bool.and_eq_false_iff]
        have hx := hr x (by simp)
        rcases (not_and_or.mp hx) with h1 | h1
        · left
          simpa [beq_iff_eq] using fun h => h1 h.symm
        · right
          simpa [beq_iff_eq] using fun h => h1 h.symm
      · exact ih hl.2 (by
          rw [pairMem_false_iff]
          intro s hs
          exact hr s (by simp [hs]))

/-- processCandidate preserves the no-duplicate-pairs invariant. -/
theorem noDupPairsB_processCandidate (u : String) (pid : Nat)
    (tone lang : String) (o : Oracles) (now : Nat)
    (revs : List Review) (c : Candidate)
    (h : noDupPairsB revs = true) :
    noDupPairsB (processCandidate u pid tone lang o now revs c) = true := by
  unfold processCandidate
  by_cases hmem : pairMem revs u c.externalReviewId
  · simpa [hmem] using h
  · rw [Bool.not_eq_true] at hmem
    by_cases hins : o.insertOk c
    · simp only [hmem, Bool.false_eq_true, if_false, hins, if_true]
      exact noDupPairsB_append_singleton h hmem
    · rw [Bool.not_eq_true] at hins
      simpa [hmem, hins] using h

/-- processPlatform preserves the no-duplicate-pairs invariant. -/
theorem noDupPairsB_processPlatform (u tone lang : String) (o : Oracles)
    (now : Nat) (revs : List Review) (p : Platform)
    (h : noDupPairsB revs = true) :
    noDupPairsB (processPlatform u tone lang o now revs p) = true := by
  unfold processPlatform
  cases o.fetch p with
  | error e => exact h
  | ok cands =>
      exact foldl_preserve _
        (fun a b ha => noDupPairsB_processCandidate u p.id tone lang o now a b ha)
        cands revs h

theorem updateUserSettings_reviews (u : String) (p : SettingsPatch)
    (now : Nat) (db : DB) :
    (updateUserSettings u p now db).1.reviews = db.reviews := by
  unfold updateUserSettings
  cases getUserSettings db u <;> rfl

/-- The pipeline preserves the no-duplicate-pairs invariant of the
reviews table. -/
theorem noDupPairsB_processUserReviews (u tone lang : String) (o : Oracles)
    (now : Nat) (db : DB) (h : noDupPairsB db.reviews = true) :
    noDupPairsB (processUserReviews u tone lang o now db).reviews = true := by
  unfold processUserReviews
  by_cases hp : (getPlatforms db u).isEmpty
  · simpa [hp] using h
  · simp only [hp, Bool.false_eq_true, if_false]
    cases hs : getUserSettings db u with
    | none => exact h
    | some s =>
        simp only [updateUserSettings_reviews]
        exact foldl_preserve _
          (fun a b ha => noDupPairsB_processPlatform u tone lang o now a b ha)
          (getPlatforms db u) db.reviews h

theorem applyPatch_userId (p : SettingsPatch) (s : UserSettings) :
    (applyPatch p s).userId = s.userId := rfl

/-- Updating all rows of one user rewrites the first found row by the
patch. -/
theorem find?_map_applyPatch (l : List UserSettings) (u : String)
    (p : SettingsPatch) :
    (l.map (fun r => if r.userId == u then applyPatch p r else r)).find?
        (fun s => s.userId == u)
      = (l.find? (fun s => s.userId == u)).map (applyPatch p) := by
  induction l with
  | nil => rfl
  | cons x l ih =>
      by_cases hx : (x.userId == u) = true
      · simp only [List.map_cons]
        rw [if_pos hx]
        simp only [List.find?]
        rw [applyPatch_userId, hx]
        rfl
      · have hx' : (x.userId == u) = false := by
          rw [Bool.not_eq_true] at hx; exact hx
        simp only [List.map_cons]
        rw [if_neg hx]
        simp only [List.find?]
        rw [hx']
        exact ih

/-- After updateUserSettings on an existing row, looking the user up again
returns the patched first row. -/
theorem getUserSettings_after_update {db : DB} {u : String}
    {s : UserSettings} (p : SettingsPatch) (now : Nat)
    (h : getUserSettings db u = some s) :
    getUserSettings (updateUserSettings u p now db).1 u
      = some (applyPatch p s) := by
  unfold updateUserSettings
  rw [h]
  simp only [getUserSettings] at h ⊢
  rw [find?_map_applyPatch, h, Option.map_some']

/-- After a full pipeline run over an account with platforms and settings,
the account's settings row is its old row with the watermark set to now. -/
theorem watermark_after_run {db : DB} {u : String} {s : UserSettings}
    (tone lang : String) (o : Oracles) (now : Nat)
    (h1 : (getPlatforms db u).isEmpty = false)
    (h2 : getUserSettings db u = some s) :
    getUserSettings (processUserReviews u tone lang o now db) u
      = some { s with lastCheckTime := now } := by
  unfold processUserReviews
  simp only [h1, Bool.false_eq_true, if_false, h2]
  have h2' : getUserSettings
      { db with reviews :=
          (getPlatforms db u).foldl (processPlatform u tone lang o now) db.reviews } u
      = some s := h2
  rw [getUserSettings_after_update
    { defaultTone := none, language := none,
      autoReplyEnabled := none, lastCheckTime := some now } now h2']
  rfl

theorem updateUserSettings_platforms (u : String) (p : SettingsPatch)
    (now : Nat) (db : DB) :
    (updateUserSettings u p now db).1.platforms = db.platforms := by
  unfold updateUserSettings
  cases getUserSettings db u <;> rfl

/-- The pipeline never touches the platforms table. -/
theorem processUserReviews_platforms (u tone lang : String) (o : Oracles)
    (now : Nat) (db : DB) :
    (processUserReviews u tone lang o now db).platforms = db.platforms := by
  unfold processUserReviews
  by_cases hp : (getPlatforms db u).isEmpty = true
  · simp [hp]
  · rw [if_neg hp]
    cases hs : getUserSettings db u with
    | none => rfl
    | some s => exact updateUserSettings_platforms u _ now _

theorem find?_append_singleton_neg (l : List UserSettings) (c : UserSettings)
    (p : UserSettings → Bool) (hc : p c = false) :
    (l ++ [c]).find? p = l.find? p := by
  induction l with
  | nil => simp [List.find?, hc]
  | cons x l ih =>
      by_cases hx : p x = true
      · simp only [List.cons_append, List.find?]
        rw [hx]
      · have hx' : p x = false := by simpa using hx
        simp only [List.cons_append, List.find?]
        rw [hx']
        exact ih

/-- Updating all rows of user `u` leaves the lookup of a different user
unchanged. -/
theorem find?_map_applyPatch_ne (l : List UserSettings) (u u' : String)
    (p : SettingsPatch) (hne : u' ≠ u) :
    (l.map (fun r => if r.userId == u then applyPatch p r else r)).find?
        (fun s => s.userId == u')
      = l.find? (fun s => s.userId == u') := by
  induction l with
  | nil => rfl
  | cons x l ih =>
      by_cases hx : (x.userId == u') = true
      · have hxeq : x.userId = u' := by simpa using hx
        have hxu : ¬((x.userId == u) = true) := by
          simp only [beq_iff_eq, hxeq]
          exact hne
        simp only [List.map_cons]
        rw [if_neg hxu]
        simp only [List.find?]
        rw [hx]
      · have hx' : (x.userId == u') = false := by simpa using hx
        simp only [List.map_cons]
        by_cases hxu : (x.userId == u) = true
        · rw [if_pos hxu]
          simp only [List.find?]
          rw [applyPatch_userId, hx']
          exact ih
        · rw [if_neg hxu]
          simp only [List.find?]
          rw [hx']
          exact ih

/-- updateUserSettings for user `u` does not change the settings lookup of
a different user `u'`, in the update branch and in the create branch. -/
theorem getUserSettings_after_update_ne {db : DB} {u u' : String}
    (p : SettingsPatch) (now : Nat) (hne : u' ≠ u) :
    getUserSettings (updateUserSettings u p now db).1 u'
      = getUserSettings db u' := by
  cases hs : getUserSettings db u with
  | some s =>
      unfold updateUserSettings
      rw [hs]
      exact find?_map_applyPatch_ne db.settings u u' p hne
  | none =>
      unfold updateUserSettings
      rw [hs]
      apply find?_append_singleton_neg
      have hun : u ≠ u' := fun h => hne h.symm
      simpa using hun

/-- The pipeline for user `u` does not change the settings row of a
different user `u'`. -/
theorem processUserReviews_getUserSettings_ne (u u' tone lang : String)
    (o : Oracles) (now : Nat) (db : DB) (hne : u' ≠ u) :
    getUserSettings (processUserReviews u tone lang o now db) u'
      = getUserSettings db u' := by
  unfold processUserReviews
  by_cases hp : (getPlatforms db u).isEmpty = true
  · simp [hp]
  · rw [if_neg hp]
    cases hs : getUserSettings db u with
    | none => rfl
    | some s => exact getUserSettings_after_update_ne _ now hne

/-- One sweep step for an account different from `bUid` restores the
processing set and, whatever its outcome (skip, failure, pipeline run),
keeps the platforms table and `bUid`'s settings lookup. -/
theorem sweepStep_preserves (fails : String → Bool) (o : Oracles) (now : Nat)
    (proc : List String) (db : DB) (s : UserSettings) (bUid : String)
    (hne : s.userId ≠ bUid) :
    ∃ db1, sweepStep fails o now (proc, db) s = (proc, db1) ∧
      db1.platforms = db.platforms ∧
      getUserSettings db1 bUid = getUserSettings db bUid := by
  by_cases h : s.userId ∈ proc
  · exact ⟨db, by simp [sweepStep, h], rfl, rfl⟩
  · by_cases hf : fails s.userId = true
    · exact ⟨db, by simp [sweepStep, h, hf], rfl, rfl⟩
    · have hf' : fails s.userId = false := by simpa using hf
      exact ⟨processUserReviews s.userId s.defaultTone s.language o now db,
        by simp [sweepStep, h, hf'],
        processUserReviews_platforms s.userId s.defaultTone s.language o now db,
        processUserReviews_getUserSettings_ne s.userId bUid s.defaultTone
          s.language o now db (Ne.symm hne)⟩

/-- Folding the sweep over any run of accounts all different from `bUid`
restores the processing set and keeps the platforms table and `bUid`'s
settings lookup, whatever failures occur along the way. -/
theorem sweep_foldl_preserves (fails : String → Bool) (o : Oracles)
    (now : Nat) (bUid : String) :
    ∀ (L : List UserSettings) (proc : List String) (db : DB),
      (∀ s ∈ L, s.userId ≠ bUid) →
      ∃ db', L.foldl (sweepStep fails o now) (proc, db) = (proc, db') ∧
        db'.platforms = db.platforms ∧
        getUserSettings db' bUid = getUserSettings db bUid := by
  intro L
  induction L with
  | nil => intro proc db _; exact ⟨db, rfl, rfl, rfl⟩
  | cons s L ih =>
      intro proc db h
      obtain ⟨db1, hstep, hplat1, hset1⟩ :=
        sweepStep_preserves fails o now proc db s bUid (h s (by simp))
      obtain ⟨db', hfold, hplat2, hset2⟩ :=
        ih proc db1 (fun x hx => h x (by simp [hx]))
      exact ⟨db', by rw [List.foldl_cons, hstep, hfold],
        by rw [hplat2, hplat1], by rw [hset2, hset1]⟩

/-! Concrete fixtures used by witnesses and counterexamples. -/

/-- Oracle whose simulator returns nothing, whose generator is offline and
whose inserts succeed. -/
def oQuiet : Oracles :=
  { fetch := fun _ => Except.ok []
    gen := fun _ => Except.error "offline"
    insertOk := fun _ => true }

/-- A fixed five-star candidate. -/
def cOne : Candidate :=
  { externalReviewId := "ext-1", customerName := "Alice",
    reviewText := "Great service!", starRating := 5 }

/-- Oracle delivering `cOne` on every platform, a working generator and
succeeding inserts. -/
def oOneCandidate : Oracles :=
  { fetch := fun _ => Except.ok [cOne]
    gen := fun _ => Except.ok "Thank you Alice!"
    insertOk := fun _ => true }

/-- Settings row of the enabled account `u1`. -/
def sOne : UserSettings :=
  { userId := "u1", defaultTone := "Friendly", language := "English",
    autoReplyEnabled := true, lastCheckTime := 10 }

/-- Database with one enabled account `u1` owning one platform. -/
def dbOne : DB :=
  { settings := [sOne]
    platforms := [{ id := 1, userId := "u1", platformName := "Google Business" }]
    reviews := []
    templates := [] }

/-- Database where `u1` has a platform but no settings row. -/
def dbNoSettings : DB :=
  { settings := []
    platforms := [{ id := 1, userId := "u1", platformName := "Google Business" }]
    reviews := []
    templates := [] }

/-- The empty database. -/
def dbEmpty : DB :=
  { settings := [], platforms := [], reviews := [], templates := [] }

/-- Database where `u1` has settings but zero connected platforms. -/
def dbNoPlat : DB :=
  { settings := [sOne], platforms := [], reviews := [], templates := [] }

/-- Enabled account `uA` (its pipeline will be made to fail). -/
def sA : UserSettings :=
  { userId := "uA", defaultTone := "Professional", language := "English",
    autoReplyEnabled := true, lastCheckTime := 1 }

/-- Enabled account `uB` (its pipeline succeeds). -/
def sB : UserSettings :=
  { userId := "uB", defaultTone := "Casual", language := "French",
    autoReplyEnabled := true, lastCheckTime := 2 }

/-- Enabled account `uC`, processed after `uB` in the sweep fixture. -/
def sC : UserSettings :=
  { userId := "uC", defaultTone := "Formal", language := "Spanish",
    autoReplyEnabled := true, lastCheckTime := 3 }

/-- Database with four enabled accounts swept in the order
u1, uA (failing), uB, uC. -/
def dbSweep : DB :=
  { settings := [sOne, sA, sB, sC]
    platforms := [{ id := 1, userId := "u1", platformName := "Google Business" },
                  { id := 2, userId := "uB", platformName := "Yelp" },
                  { id := 3, userId := "uC", platformName := "TripAdvisor" }]
    reviews := []
    templates := [] }

/-- Failure oracle making exactly account `uA` fail. -/
def failsA : String → Bool := fun u => u == "uA"

/-- Patch providing an empty-string tone and nothing else. -/
def cexPatch : SettingsPatch :=
  { defaultTone := some "", language := none,
    autoReplyEnabled := none, lastCheckTime := none }

/-- Patch providing every field. -/
def fullPatch : SettingsPatch :=
  { defaultTone := some "Casual", language := some "German",
    autoReplyEnabled := some false, lastCheckTime := some 99 }

/-! Claim theorems -/

/-- C2: at most one pipeline invocation per account is in flight: a sweep
skips an account whose id is in the processing set; checkUserReviewsNow
throws the busy error when the id is in the set; and on every path of both
entry points the processing set is restored when the invocation finishes,
including when the pipeline raised. -/
theorem reentrancy_guard_spec :
    (∀ (fails : String → Bool) (o : Oracles) (now : Nat)
        (proc : List String) (db : DB) (s : UserSettings),
        proc.contains s.userId = true →
        sweepStep fails o now (proc, db) s = (proc, db)) ∧
    (∀ (o : Oracles) (now : Nat) (proc : List String) (u : String) (db : DB),
        proc.contains u = true →
        checkUserReviewsNow o now proc u db
          = (proc, db, Except.error AutomationError.busy)) ∧
    (∀ (fails : String → Bool) (o : Oracles) (now : Nat)
        (proc : List String) (db : DB) (s : UserSettings),
        (sweepStep fails o now (proc, db) s).1 = proc) ∧
    (∀ (o : Oracles) (now : Nat) (proc : List String) (u : String) (db : DB),
        (checkUserReviewsNow o now proc u db).1 = proc) := by
  refine ⟨?_, ?_, ?_, ?_⟩
  · intro fails o now proc db s h
    have h' : s.userId ∈ proc := by simpa using h
    simp [sweepStep, h']
  · intro o now proc u db h
    have h' : u ∈ proc := by simpa using h
    simp [checkUserReviewsNow, h']
  · intro fails o now proc db s
    by_cases h' : s.userId ∈ proc <;> simp [sweepStep, h']
  · intro o now proc u db
    by_cases h' : u ∈ proc
    · simp [checkUserReviewsNow, h']
    · cases hs : getUserSettings db u <;> simp [checkUserReviewsNow, h', hs]

/-- Witness for C2 at concrete inputs. -/
theorem reentrancy_guard_spec_witness :
    (List.contains ["u1"] "u1" = true ∧
      sweepStep (fun _ => false) oQuiet 5 (["u1"], dbOne) sOne
        = (["u1"], dbOne)) ∧
    (checkUserReviewsNow oQuiet 5 ["u1"] "u1" dbOne
        = (["u1"], dbOne, Except.error AutomationError.busy)) ∧
    (sweepStep (fun _ => true) oQuiet 5 ([], dbOne) sOne).1 = [] ∧
    (checkUserReviewsNow oQuiet 5 [] "u1" dbOne).1 = [] := by
  refine ⟨⟨by decide, ?_⟩, ?_, ?_, ?_⟩
  · exact reentrancy_guard_spec.1 (fun _ => false) oQuiet 5 ["u1"] dbOne
      sOne (by decide)
  · exact reentrancy_guard_spec.2.1 oQuiet 5 ["u1"] "u1" dbOne (by decide)
  · exact reentrancy_guard_spec.2.2.1 (fun _ => true) oQuiet 5 [] dbOne
      sOne
  · exact reentrancy_guard_spec.2.2.2 oQuiet 5 [] "u1" dbOne

/-- C4: for an account with at least one platform and an existing settings
row, the pipeline sets the lastCheckTime watermark to the current time, for
every oracle (so regardless of per-platform fetch failures, generation
failures and per-review insert failures, and also when zero candidates
arrive), and the new watermark is at least any instant observed before the
run. -/
theorem watermark_advances (u tone lang : String) (o : Oracles) (now t0 : Nat)
    (db : DB) (s : UserSettings)
    (h1 : (getPlatforms db u).isEmpty = false)
    (h2 : getUserSettings db u = some s)
    (h3 : t0 ≤ now) :
    ∃ s2, getUserSettings (processUserReviews u tone lang o now db) u = some s2 ∧
      s2.lastCheckTime = now ∧ t0 ≤ s2.lastCheckTime := by
  refine ⟨{ s with lastCheckTime := now }, ?_, rfl, h3⟩
  exact watermark_after_run tone lang o now h1 h2

/-- Witness for C4: a run over `dbOne` with zero candidates and an offline
generator still advances the watermark from 10 to 42. -/
theorem watermark_advances_witness :
    ∃ s2, getUserSettings
        (processUserReviews "u1" "Friendly" "English" oQuiet 42 dbOne) "u1"
        = some s2 ∧ s2.lastCheckTime = 42 ∧ 10 ≤ s2.lastCheckTime :=
  watermark_advances "u1" "Friendly" "English" oQuiet 42 10 dbOne
    sOne (by decide) (by decide) (by decide)

/-- C6: start is idempotent (a second call while running changes nothing
and triggers no sweep), a first call triggers exactly one immediate sweep
and arms the repeating five-minute timer; stop is idempotent and only
cancels the timer. -/
theorem start_stop_idempotent :
    (∀ (fails : String → Bool) (o : Oracles) (now : Nat) (st : ServiceState)
        (proc : List String) (db : DB),
        st.isRunning = true →
        start fails o now st proc db = (st, (proc, db), 0)) ∧
    (∀ (fails : String → Bool) (o : Oracles) (now : Nat) (st : ServiceState)
        (proc : List String) (db : DB),
        st.isRunning = false →
        start fails o now st proc db
          = ({ isRunning := true, timer := some (5 * 60 * 1000) },
             processAllUsers fails o now proc db, 1)) ∧
    (∀ t : Option Nat,
        stop { isRunning := true, timer := t }
          = { isRunning := false, timer := none }) ∧
    (∀ st : ServiceState, st.isRunning = false → stop st = st) ∧
    (∀ st : ServiceState, stop (stop st) = stop st) := by
  refine ⟨?_, ?_, ?_, ?_, ?_⟩
  · intro fails o now st proc db h
    simp [start, h]
  · intro fails o now st proc db h
    simp [start, h, CHECK_INTERVAL]
  · intro t
    simp [stop]
  · intro st h
    simp [stop, h]
  · intro st
    rcases st with ⟨running, t⟩
    cases running <;> simp [stop]

/-- Witness for C6 at concrete states. -/
theorem start_stop_idempotent_witness :
    (start (fun _ => false) oQuiet 0
        { isRunning := true, timer := some CHECK_INTERVAL } [] dbEmpty
      = ({ isRunning := true, timer := some CHECK_INTERVAL }, ([], dbEmpty), 0)) ∧
    (start (fun _ => false) oQuiet 0
        { isRunning := false, timer := none } [] dbEmpty
      = ({ isRunning := true, timer := some (5 * 60 * 1000) },
         processAllUsers (fun _ => false) oQuiet 0 [] dbEmpty, 1)) ∧
    (stop { isRunning := true, timer := some CHECK_INTERVAL }
      = { isRunning := false, timer := none }) ∧
    (stop { isRunning := false, timer := none }
      = { isRunning := false, timer := none }) ∧
    (stop (stop { isRunning := true, timer := some CHECK_INTERVAL })
      = stop { isRunning := true, timer := some CHECK_INTERVAL }) := by
  refine ⟨?_, ?_, ?_, ?_, ?_⟩
  · exact start_stop_idempotent.1 (fun _ => false) oQuiet 0
      { isRunning := true, timer := some CHECK_INTERVAL } [] dbEmpty rfl
  · exact start_stop_idempotent.2.1 (fun _ => false) oQuiet 0
      { isRunning := false, timer := none } [] dbEmpty rfl
  · exact start_stop_idempotent.2.2.1 (some CHECK_INTERVAL)
  · exact start_stop_idempotent.2.2.2.1 { isRunning := false, timer := none } rfl
  · exact start_stop_idempotent.2.2.2.2 { isRunning := true, timer := some CHECK_INTERVAL }

/-- C10: deletePlatform and deleteReplyTemplate report success for every
id; in particular deleting an id with no matching row returns true and
leaves the database unchanged. -/
theorem delete_ops_return_true :
    (∀ (id : Nat) (db : DB),
        (deletePlatform id db).2 = true ∧ (deleteReplyTemplate id db).2 = true) ∧
    (∀ (id : Nat) (db : DB),
        db.platforms.find? (fun p => p.id == id) = none →
        deletePlatform id db = (db, true)) ∧
    (∀ (id : Nat) (db : DB),
        db.templates.find? (fun t => t.id == id) = none →
        deleteReplyTemplate id db = (db, true)) := by
  refine ⟨fun id db => ⟨rfl, rfl⟩, ?_, ?_⟩
  · intro id db h
    rw [List.find?_eq_none] at h
    unfold deletePlatform
    rw [List.filter_eq_self.mpr ?_]
    · intro p hp
      simpa using h p hp
  · intro id db h
    rw [List.find?_eq_none] at h
    unfold deleteReplyTemplate
    rw [List.filter_eq_self.mpr ?_]
    · intro t ht
      simpa using h t ht

/-- Witness for C10: deleting platform id 7 and template id 7, which do
not exist in `dbOne`, both succeed and change nothing. -/
theorem delete_ops_return_true_witness :
    ((deletePlatform 7 dbOne).2 = true ∧ (deleteReplyTemplate 7 dbOne).2 = true) ∧
    deletePlatform 7 dbOne = (dbOne, true) ∧
    deleteReplyTemplate 7 dbOne = (dbOne, true) :=
  ⟨delete_ops_return_true.1 7 dbOne,
   delete_ops_return_true.2.1 7 dbOne (by decide),
   delete_ops_return_true.2.2 7 dbOne (by decide)⟩

/-- C1: a candidate whose (userId, externalReviewId) pair already exists is
skipped without inserting, and running the per-account pipeline twice over
an unchanged candidate set (the same oracles) never creates two review rows
with the same (userId, externalReviewId) pair. -/
theorem dedup_idempotent_ingestion :
    (∀ (u : String) (pid : Nat) (tone lang : String) (o : Oracles) (now : Nat)
        (revs : List Review) (c : Candidate),
        pairMem revs u c.externalReviewId = true →
        processCandidate u pid tone lang o now revs c = revs) ∧
    (∀ (u tone lang : String) (o : Oracles) (now : Nat) (db : DB),
        noDupPairsB db.reviews = true →
        noDupPairsB (processUserReviews u tone lang o now
            (processUserReviews u tone lang o now db)).reviews = true) := by
  constructor
  · intro u pid tone lang o now revs c h
    simp [processCandidate, h]
  · intro u tone lang o now db h
    exact noDupPairsB_processUserReviews u tone lang o now _
      (noDupPairsB_processUserReviews u tone lang o now db h)

/-- Witness for C1: the candidate `cOne` is skipped when its pair exists,
and two runs over `dbOne` leave the pairs duplicate-free. -/
theorem dedup_idempotent_ingestion_witness :
    (pairMem [mkReview "u1" 1 "Friendly" "Thanks" 3 cOne] "u1"
        cOne.externalReviewId = true ∧
      processCandidate "u1" 1 "Friendly" "English" oOneCandidate 3
        [mkReview "u1" 1 "Friendly" "Thanks" 3 cOne] cOne
        = [mkReview "u1" 1 "Friendly" "Thanks" 3 cOne]) ∧
    (noDupPairsB dbOne.reviews = true ∧
      noDupPairsB (processUserReviews "u1" "Friendly" "English" oOneCandidate 3
        (processUserReviews "u1" "Friendly" "English" oOneCandidate 3
          dbOne)).reviews = true) := by
  refine ⟨⟨by decide, ?_⟩, ⟨by decide, ?_⟩⟩
  · exact dedup_idempotent_ingestion.1 "u1" 1 "Friendly" "English"
      oOneCandidate 3 [mkReview "u1" 1 "Friendly" "Thanks" 3 cOne] cOne
      (by decide)
  · exact dedup_idempotent_ingestion.2 "u1" "Friendly" "English"
      oOneCandidate 3 dbOne (by decide)

/-- C3: when the generation attempt for a fresh candidate fails, the
pipeline still creates the review row, whose response text is the
deterministic fallback template for the candidate's sentiment bucket and
the requested tone, with the requested tone and the autoResponded flag
recorded; the generation call itself never raises (generateResponse is
total). -/
theorem generation_failure_fallback (u : String) (pid : Nat)
    (tone lang : String) (o : Oracles) (now : Nat) (revs : List Review)
    (c : Candidate) (err : String)
    (hgen : o.gen c = Except.error err)
    (hnew : pairMem revs u c.externalReviewId = false)
    (hins : o.insertOk c = true) :
    processCandidate u pid tone lang o now revs c
      = revs ++ [mkReview u pid tone
          (fallbackTemplate (sentimentBucket c.starRating) tone) now c] ∧
    (mkReview u pid tone
        (fallbackTemplate (sentimentBucket c.starRating) tone) now c).responseText
      = fallbackTemplate (sentimentBucket c.starRating) tone ∧
    (mkReview u pid tone
        (fallbackTemplate (sentimentBucket c.starRating) tone) now c).responseTone
      = tone ∧
    (mkReview u pid tone
        (fallbackTemplate (sentimentBucket c.starRating) tone) now c).autoResponded
      = true := by
  refine ⟨?_, rfl, rfl, rfl⟩
  simp [processCandidate, hnew, hins, generateResponse, hgen]

/-- Witness for C3: the offline oracle makes `cOne` land with the positive
fallback template in tone Friendly. -/
theorem generation_failure_fallback_witness :
    oQuiet.gen cOne = Except.error "offline" ∧
    processCandidate "u1" 1 "Friendly" "English" oQuiet 9 [] cOne
      = [mkReview "u1" 1 "Friendly"
          (fallbackTemplate (sentimentBucket cOne.starRating) "Friendly") 9 cOne] := by
  refine ⟨rfl, ?_⟩
  have h := generation_failure_fallback "u1" 1 "Friendly" "English" oQuiet 9
    [] cOne "offline" rfl (by decide) rfl
  simpa using h.1

/-- C5: in a sweep over any list of enabled accounts split as
pre ++ b :: post, with arbitrary failures among the other accounts (in
particular when earlier accounts' pipelines raised), any subsequent
account b whose own pipeline succeeds is still processed: the sweep
completes, restores the processing set, and advances b's lastCheckTime
watermark to the sweep time. -/
theorem sweep_isolation (fails : String → Bool) (o : Oracles) (now : Nat)
    (proc : List String) (db : DB) (pre post : List UserSettings)
    (b sb : UserSettings)
    (hsplit : db.settings.filter (fun s => s.autoReplyEnabled)
      = pre ++ b :: post)
    (hpre : ∀ s ∈ pre, s.userId ≠ b.userId)
    (hpost : ∀ s ∈ post, s.userId ≠ b.userId)
    (hfb : fails b.userId = false)
    (hpb : b.userId ∉ proc)
    (hplat : (getPlatforms db b.userId).isEmpty = false)
    (hsb : getUserSettings db b.userId = some sb) :
    (processAllUsers fails o now proc db).1 = proc ∧
    getUserSettings (processAllUsers fails o now proc db).2 b.userId
      = some { sb with lastCheckTime := now } := by
  obtain ⟨dbMid, hpreFold, hplatM, hsetM⟩ :=
    sweep_foldl_preserves fails o now b.userId pre proc db hpre
  have hplatMid : (getPlatforms dbMid b.userId).isEmpty = false := by
    unfold getPlatforms
    rw [hplatM]
    exact hplat
  have hsbMid : getUserSettings dbMid b.userId = some sb := by
    rw [hsetM]; exact hsb
  have hstepB : sweepStep fails o now (proc, dbMid) b
      = (proc, processUserReviews b.userId b.defaultTone b.language o now dbMid) := by
    simp [sweepStep, hpb, hfb]
  have hsbB : getUserSettings
      (processUserReviews b.userId b.defaultTone b.language o now dbMid) b.userId
      = some { sb with lastCheckTime := now } :=
    watermark_after_run b.defaultTone b.language o now hplatMid hsbMid
  obtain ⟨dbEnd, hpostFold, hplatE, hsetE⟩ :=
    sweep_foldl_preserves fails o now b.userId post proc
      (processUserReviews b.userId b.defaultTone b.language o now dbMid) hpost
  have hrun : processAllUsers fails o now proc db = (proc, dbEnd) := by
    unfold processAllUsers
    rw [hsplit, List.foldl_append, hpreFold, List.foldl_cons, hstepB, hpostFold]
  rw [hrun]
  refine ⟨rfl, ?_⟩
  show getUserSettings dbEnd b.userId = some { sb with lastCheckTime := now }
  rw [hsetE]
  exact hsbB

/-- Witness for C5: in the four-account sweep over `dbSweep` where uA's
pipeline fails, the later accounts uB (directly after the failure) and uC
(last) are both still processed and end with watermark 42. -/
theorem sweep_isolation_witness :
    ((processAllUsers failsA oQuiet 42 [] dbSweep).1 = [] ∧
      getUserSettings (processAllUsers failsA oQuiet 42 [] dbSweep).2 "uB"
        = some { sB with lastCheckTime := 42 }) ∧
    getUserSettings (processAllUsers failsA oQuiet 42 [] dbSweep).2 "uC"
      = some { sC with lastCheckTime := 42 } := by
  refine ⟨⟨?_, ?_⟩, ?_⟩
  · exact (sweep_isolation failsA oQuiet 42 [] dbSweep [sOne, sA] [sC] sB sB
      (by decide) (by decide) (by decide) (by decide) (by decide)
      (by decide) (by decide)).1
  · exact (sweep_isolation failsA oQuiet 42 [] dbSweep [sOne, sA] [sC] sB sB
      (by decide) (by decide) (by decide) (by decide) (by decide)
      (by decide) (by decide)).2
  · exact (sweep_isolation failsA oQuiet 42 [] dbSweep [sOne, sA, sB] [] sC sC
      (by decide) (by decide) (by decide) (by decide) (by decide)
      (by decide) (by decide)).2

/-- C7 counterexample: `u1` has a platform but no settings row, yet the
manual trigger does not complete benignly — it raises the
settings-not-found error, refuting that the manual trigger completes
without raising in every missing-prerequisite case. -/
theorem manual_trigger_missing_settings_raises :
    getUserSettings dbNoSettings "u1" = none ∧
    (getPlatforms dbNoSettings "u1").isEmpty = false ∧
    checkUserReviewsNow oQuiet 0 [] "u1" dbNoSettings
      = ([], dbNoSettings, Except.error AutomationError.settingsNotFound) := by
  refine ⟨rfl, rfl, rfl⟩

/-- C7 amended: the pipeline treats zero platforms and absent settings as
benign no-ops; the manual trigger completes without raising when settings
exist but no platform is connected, and raises the settings-not-found error
exactly when the settings row is absent. -/
theorem missing_prereqs_behavior :
    (∀ (u tone lang : String) (o : Oracles) (now : Nat) (db : DB),
        (getPlatforms db u).isEmpty = true →
        processUserReviews u tone lang o now db = db) ∧
    (∀ (u tone lang : String) (o : Oracles) (now : Nat) (db : DB),
        getUserSettings db u = none →
        processUserReviews u tone lang o now db = db) ∧
    (∀ (o : Oracles) (now : Nat) (proc : List String) (u : String) (db : DB)
        (s : UserSettings),
        u ∉ proc → getUserSettings db u = some s →
        (getPlatforms db u).isEmpty = true →
        checkUserReviewsNow o now proc u db = (proc, db, Except.ok ())) ∧
    (∀ (o : Oracles) (now : Nat) (proc : List String) (u : String) (db : DB),
        u ∉ proc → getUserSettings db u = none →
        checkUserReviewsNow o now proc u db
          = (proc, db, Except.error AutomationError.settingsNotFound)) := by
  refine ⟨?_, ?_, ?_, ?_⟩
  · intro u tone lang o now db h
    simp [processUserReviews, h]
  · intro u tone lang o now db h
    unfold processUserReviews
    rw [h]
    by_cases hp : (getPlatforms db u).isEmpty <;> simp [hp]
  · intro o now proc u db s hc hs hp
    have hdb : processUserReviews u s.defaultTone s.language o now db = db := by
      simp [processUserReviews, hp]
    simp [checkUserReviewsNow, hc, hs, hdb]
  · intro o now proc u db hc hs
    simp [checkUserReviewsNow, hc, hs]

/-- Witness for the amended C7 at concrete databases. -/
theorem missing_prereqs_behavior_witness :
    (processUserReviews "u1" "Friendly" "English" oOneCandidate 3 dbNoPlat
      = dbNoPlat) ∧
    (processUserReviews "u1" "Friendly" "English" oOneCandidate 3 dbNoSettings
      = dbNoSettings) ∧
    (checkUserReviewsNow oOneCandidate 3 [] "u1" dbNoPlat
      = ([], dbNoPlat, Except.ok ())) ∧
    (checkUserReviewsNow oOneCandidate 3 [] "u1" dbNoSettings
      = ([], dbNoSettings, Except.error AutomationError.settingsNotFound)) := by
  refine ⟨?_, ?_, ?_, ?_⟩
  · exact missing_prereqs_behavior.1 "u1" "Friendly" "English" oOneCandidate 3
      dbNoPlat (by decide)
  · exact missing_prereqs_behavior.2.1 "u1" "Friendly" "English" oOneCandidate 3
      dbNoSettings (by decide)
  · exact missing_prereqs_behavior.2.2.1 oOneCandidate 3 [] "u1" dbNoPlat sOne
      (by decide) (by decide) (by decide)
  · exact missing_prereqs_behavior.2.2.2 oOneCandidate 3 [] "u1" dbNoSettings
      (by decide) (by decide)

/-- C8 counterexample: the busy condition and a different failure
(settings not found) are both answered with the same status 500, so the
endpoint does not map busy to a conflict status distinct from other
failures. -/
theorem busy_and_other_failures_same_status :
    (checkUserReviewsNow oQuiet 0 ["u1"] "u1" dbNoSettings).2.2
      = Except.error AutomationError.busy ∧
    (checkReviewsRoute oQuiet 0 ["u1"] "u1" dbNoSettings).2.status = 500 ∧
    (checkUserReviewsNow oQuiet 0 [] "u1" dbNoSettings).2.2
      = Except.error AutomationError.settingsNotFound ∧
    (checkReviewsRoute oQuiet 0 [] "u1" dbNoSettings).2.status = 500 := by
  refine ⟨rfl, rfl, rfl, rfl⟩

/-- C8 amended: the endpoint answers every failure of the manual check,
the busy condition included, with the same generic 500 response, and
answers 200 on success even when zero reviews were ingested. -/
theorem check_reviews_route_statuses :
    (∀ (o : Oracles) (now : Nat) (proc : List String) (u : String) (db : DB),
        u ∈ proc →
        checkReviewsRoute o now proc u db
          = ((proc, db),
             { status := 500, message := "Failed to check for reviews" })) ∧
    (∀ (o : Oracles) (now : Nat) (proc : List String) (u : String) (db : DB),
        u ∉ proc → getUserSettings db u = none →
        checkReviewsRoute o now proc u db
          = ((proc, db),
             { status := 500, message := "Failed to check for reviews" })) ∧
    (∀ (o : Oracles) (now : Nat) (proc : List String) (u : String) (db : DB)
        (s : UserSettings),
        u ∉ proc → getUserSettings db u = some s →
        (getPlatforms db u).isEmpty = true →
        checkReviewsRoute o now proc u db
          = ((proc, db),
             { status := 200, message := "Review check initiated" })) := by
  refine ⟨?_, ?_, ?_⟩
  · intro o now proc u db h
    simp [checkReviewsRoute, checkUserReviewsNow, h]
  · intro o now proc u db hc hs
    simp [checkReviewsRoute, checkUserReviewsNow, hc, hs]
  · intro o now proc u db s hc hs hp
    have hdb : processUserReviews u s.defaultTone s.language o now db = db := by
      simp [processUserReviews, hp]
    simp [checkReviewsRoute, checkUserReviewsNow, hc, hs, hdb]

/-- Witness for the amended C8. -/
theorem check_reviews_route_statuses_witness :
    (checkReviewsRoute oQuiet 0 ["u1"] "u1" dbOne
      = ((["u1"], dbOne),
         { status := 500, message := "Failed to check for reviews" })) ∧
    (checkReviewsRoute oQuiet 0 [] "u1" dbNoSettings
      = (([], dbNoSettings),
         { status := 500, message := "Failed to check for reviews" })) ∧
    (checkReviewsRoute oQuiet 0 [] "u1" dbNoPlat
      = (([], dbNoPlat),
         { status := 200, message := "Review check initiated" })) := by
  refine ⟨?_, ?_, ?_⟩
  · exact check_reviews_route_statuses.1 oQuiet 0 ["u1"] "u1" dbOne (by decide)
  · exact check_reviews_route_statuses.2.1 oQuiet 0 [] "u1" dbNoSettings
      (by decide) (by decide)
  · exact check_reviews_route_statuses.2.2 oQuiet 0 [] "u1" dbNoPlat sOne
      (by decide) (by decide) (by decide)

/-- C9 counterexample: with no existing row, a provided empty-string tone
is not kept — the created row carries the default "Professional", refuting
that the created row's fields equal the provided partial values. -/
theorem update_settings_empty_tone_cex :
    getUserSettings dbEmpty "u1" = none ∧
    cexPatch.defaultTone = some "" ∧
    (updateUserSettings "u1" cexPatch 7 dbEmpty).2.defaultTone
      = "Professional" ∧
    ¬(updateUserSettings "u1" cexPatch 7 dbEmpty).2.defaultTone = "" := by
  refine ⟨rfl, rfl, rfl, by decide⟩

/-- C9 amended: for a userId with no settings row, updateUserSettings
creates and returns a row whose fields are the provided values, except
that a provided empty-string tone or language falls back to its default;
absent fields default to tone Professional, language English,
autoReplyEnabled false and lastCheckTime now.  A provided non-empty tone
and a provided autoReplyEnabled (false included) are kept. -/
theorem update_settings_creates_row (u : String) (p : SettingsPatch)
    (now : Nat) (db : DB)
    (h : getUserSettings db u = none) :
    updateUserSettings u p now db
      = ({ db with settings := db.settings ++
            [{ userId := u
               defaultTone := jsOrStr p.defaultTone "Professional"
               language := jsOrStr p.language "English"
               autoReplyEnabled := p.autoReplyEnabled.getD false
               lastCheckTime := p.lastCheckTime.getD now }] },
         { userId := u
           defaultTone := jsOrStr p.defaultTone "Professional"
           language := jsOrStr p.language "English"
           autoReplyEnabled := p.autoReplyEnabled.getD false
           lastCheckTime := p.lastCheckTime.getD now }) ∧
    (∀ s : String, p.defaultTone = some s → ¬s = "" →
        (updateUserSettings u p now db).2.defaultTone = s) ∧
    (∀ b : Bool, p.autoReplyEnabled = some b →
        (updateUserSettings u p now db).2.autoReplyEnabled = b) ∧
    (p.lastCheckTime = none →
        (updateUserSettings u p now db).2.lastCheckTime = now) := by
  refine ⟨?_, ?_, ?_, ?_⟩
  · unfold updateUserSettings
    rw [h]
  · intro s hs hne
    have hbeq : (s == "") = false := beq_eq_false_iff_ne.mpr hne
    unfold updateUserSettings
    rw [h]
    simp [jsOrStr, hs, hbeq]
  · intro b hb
    unfold updateUserSettings
    rw [h]
    simp [hb]
  · intro hl
    unfold updateUserSettings
    rw [h]
    simp [hl]

/-- Witness for the amended C9: every field provided and kept, except that
tone "Casual" is non-empty so it survives. -/
theorem update_settings_creates_row_witness :
    getUserSettings dbEmpty "u2" = none ∧
    (updateUserSettings "u2" fullPatch 7 dbEmpty).2
      = { userId := "u2", defaultTone := "Casual", language := "German",
          autoReplyEnabled := false, lastCheckTime := 99 } := by
  refine ⟨rfl, ?_⟩
  have h := update_settings_creates_row "u2" fullPatch 7 dbEmpty rfl
  rw [h.1]
  rfl

end AutoReplyAI
